import Mathlib

/-!
Shallow embedding of the Home-canvas application core (App.tsx):
the undo/redo history log over generated scene composites and the
touch coordinate mapper that converts container-relative pointer
positions into percentages relative to the letterboxed image content.

Image payloads (JS `File` objects) are modelled by their identifying
string (the data URL / file name); pixel coordinates and dimensions by
exact rationals (`ℚ`); the `historyIndex` React state by `ℤ` since the
code uses `-1` for the empty history.
-/

/-- One entry of the history array (interface `HistoryEntry` in App.tsx). -/
structure HistoryEntry where
  sceneFile : String
  persistedOrbPosition : Option (ℚ × ℚ)
  debugImageUrl : Option String
  debugPrompt : Option String
  productRotation : ℤ
deriving Repr, DecidableEq

/-- Successful result of `generateCompositeImage` (the compositing collaborator). -/
structure GenResult where
  finalImageUrl : String
  debugImageUrl : Option String
  finalPrompt : String
deriving Repr, DecidableEq

/-- The slice of React state in App.tsx that the history and drop logic
reads and writes. `hasProduct` stands for
`productImageFile !== null && selectedProduct !== null`. -/
structure AppState where
  history : List HistoryEntry
  historyIndex : ℤ
  isLoading : Bool
  error : Option String
  hasProduct : Bool
deriving Repr, DecidableEq

/-- Initial React state: `history = []`, `historyIndex = -1`. -/
def initState : AppState :=
  { history := [], historyIndex := -1, isLoading := false, error := none,
    hasProduct := false }

/-- `currentHistoryEntry = history[historyIndex]` — JS indexing with a
negative or out-of-range index yields `undefined`, i.e. `none`. -/
def currentHistoryEntry (s : AppState) : Option HistoryEntry :=
  if 0 ≤ s.historyIndex then s.history[s.historyIndex.toNat]? else none

/-- `handleSceneUpload`: replaces the history with a single entry holding
the raw uploaded scene, no orb position, no debug artifact, rotation 0,
and sets `historyIndex` to 0. -/
def handleSceneUpload (file : String) (s : AppState) : AppState :=
  { s with
      history := [{ sceneFile := file, persistedOrbPosition := none,
                    debugImageUrl := none, debugPrompt := none,
                    productRotation := 0 }],
      historyIndex := 0 }

/-- `handleProductImageUpload`: records that a product is selected
(`setProductImageFile` / `setSelectedProduct`) and clears the error. -/
def handleProductImageUpload (s : AppState) : AppState :=
  { s with hasProduct := true, error := none }

/-- The entry built in `handleProductDrop` from the collaborator result
(`newEntry` in App.tsx); `sceneFile` is the file decoded from
`finalImageUrl` by `dataURLtoFile`. -/
def mkDropEntry (position : ℚ × ℚ) (r : GenResult) (rotation : ℤ) : HistoryEntry :=
  { sceneFile := r.finalImageUrl
    persistedOrbPosition := some position
    debugImageUrl := r.debugImageUrl
    debugPrompt := some r.finalPrompt
    productRotation := rotation }

/-- `handleProductDrop`: the full async flow for one placement action,
with the collaborator outcome passed in as `result`. Early-returns with
an error when no product or scene is present; otherwise on success
truncates the history to `[0, historyIndex]` (`history.slice(0,
historyIndex + 1)`), appends the new entry and moves the index to it;
on failure only sets the error message. The loading flag is cleared in
`finally` on both paths that reach the call. -/
def handleProductDrop (position relativePosition : ℚ × ℚ)
    (result : Except String GenResult) (rotation : ℤ) (s : AppState) : AppState :=
  if s.hasProduct = true ∧ (currentHistoryEntry s).isSome = true then
    match result with
    | .ok r =>
        let newHistory := s.history.take (s.historyIndex + 1).toNat
        { s with
            history := newHistory ++ [mkDropEntry position r rotation],
            historyIndex := (newHistory.length : ℤ),
            error := none,
            isLoading := false }
    | .error msg =>
        { s with
            error := some ("Failed to generate the image. " ++ msg),
            isLoading := false }
  else
    { s with error := some "An unexpected error occurred. Please try again." }

/-- `handleReset`: clears product, history (`[]`), index (`-1`), error and
loading flag. -/
def handleReset (s : AppState) : AppState :=
  { s with history := [], historyIndex := -1, error := none,
           isLoading := false, hasProduct := false }

/-- `handleUndo`: decrement `historyIndex` when it is positive, else no-op. -/
def handleUndo (s : AppState) : AppState :=
  if 0 < s.historyIndex then { s with historyIndex := s.historyIndex - 1 } else s

/-- `handleRedo`: increment `historyIndex` when below `history.length - 1`,
else no-op. -/
def handleRedo (s : AppState) : AppState :=
  if s.historyIndex < (s.history.length : ℤ) - 1 then
    { s with historyIndex := s.historyIndex + 1 }
  else s

/-- `canUndo = historyIndex > 0`. -/
def canUndo (s : AppState) : Bool := 0 < s.historyIndex

/-- `canRedo = historyIndex < history.length - 1`. -/
def canRedo (s : AppState) : Bool := s.historyIndex < (s.history.length : ℤ) - 1

/-- The `object-fit: contain` rendered content size computed in
`handleTouchEnd`: full container width when the image is relatively
wider than the container (`imageAspectRatio > containerAspectRatio`),
full container height otherwise. -/
def renderedSize (naturalWidth naturalHeight containerWidth containerHeight : ℚ) :
    ℚ × ℚ :=
  let imageAspectRatio := naturalWidth / naturalHeight
  let containerAspectRatio := containerWidth / containerHeight
  if containerAspectRatio < imageAspectRatio then
    (containerWidth, containerWidth / imageAspectRatio)
  else
    (containerHeight * imageAspectRatio, containerHeight)

/-- The coordinate mapping of `handleTouchEnd`: subtract the centering
offsets from the container-relative drop point, reject (`none`) when the
result leaves `[0, renderedWidth] × [0, renderedHeight]`, otherwise
normalize to percentages of the rendered content. -/
def mapTouchPoint (naturalWidth naturalHeight containerWidth containerHeight
    dropX dropY : ℚ) : Option (ℚ × ℚ) :=
  let rs := renderedSize naturalWidth naturalHeight containerWidth containerHeight
  let offsetX := (containerWidth - rs.1) / 2
  let offsetY := (containerHeight - rs.2) / 2
  let imageX := dropX - offsetX
  let imageY := dropY - offsetY
  if imageX < 0 ∨ rs.1 < imageX ∨ imageY < 0 ∨ rs.2 < imageY then
    none
  else
    some (imageX / rs.1 * 100, imageY / rs.2 * 100)

/-- Whether `handleProductDrop` reaches the `generateCompositeImage` call
(i.e. the early guard passes). -/
def dropCallsGenerate (s : AppState) : Bool :=
  s.hasProduct && (currentHistoryEntry s).isSome

/-- Whether the `handleTouchEnd` flow issues a generation call: the mapped
point must be in bounds and the drop guard must pass. -/
def touchEndCallsGenerate (nw nh cw ch dropX dropY : ℚ) (s : AppState) : Bool :=
  (mapTouchPoint nw nh cw ch dropX dropY).isSome && dropCallsGenerate s

/-- The `handleTouchEnd` flow over the modelled state: when the mapped
point is in bounds, `handleProductDrop` runs with the drop position and
the percentages; otherwise the drop is ignored and the state is kept. -/
def handleTouchEnd (nw nh cw ch dropX dropY : ℚ)
    (result : Except String GenResult) (rotation : ℤ) (s : AppState) : AppState :=
  match mapTouchPoint nw nh cw ch dropX dropY with
  | some p => handleProductDrop (dropX, dropY) p result rotation s
  | none => s

/-- The UI events that touch the history log, for reachability statements. -/
inductive Op where
  | sceneUpload (file : String)
  | productUpload
  | drop (position relativePosition : ℚ × ℚ)
      (result : Except String GenResult) (rotation : ℤ)
  | undo
  | redo
  | reset

/-- Dispatch one event to its handler. -/
def applyOp (s : AppState) : Op → AppState
  | .sceneUpload f => handleSceneUpload f s
  | .productUpload => handleProductImageUpload s
  | .drop p rp r rot => handleProductDrop p rp r rot s
  | .undo => handleUndo s
  | .redo => handleRedo s
  | .reset => handleReset s

/-- Run a sequence of events from a state. -/
def applyOps (ops : List Op) (s : AppState) : AppState := ops.foldl applyOp s

/-! Concrete fixtures used by examples and witnesses. -/

def eA : HistoryEntry := ⟨"sceneA", none, none, none, 0⟩

def eB : HistoryEntry := ⟨"sceneB", some (10, 20), some "debugB", some "promptB", 15⟩

def eC : HistoryEntry := ⟨"sceneC", some (30, 40), some "debugC", some "promptC", 90⟩

def rD : GenResult := ⟨"sceneD", some "debugD", "promptD"⟩

def sABC : AppState :=
  { history := [eA, eB, eC], historyIndex := 2, isLoading := false,
    error := none, hasProduct := true }

/-- C1: `append` (the success path of `handleProductDrop`) truncates the
entries to indices `[0, cursor]`, appends the new entry, sets the cursor
to the new last index and leaves no redo available. -/
theorem C1_append_truncates_and_prunes_redo
    (s : AppState) (pos rel : ℚ × ℚ) (r : GenResult) (rot : ℤ)
    (hp : s.hasProduct = true) (hc : (currentHistoryEntry s).isSome = true) :
    (handleProductDrop pos rel (.ok r) rot s).history
        = s.history.take (s.historyIndex + 1).toNat ++ [mkDropEntry pos r rot] ∧
    (handleProductDrop pos rel (.ok r) rot s).historyIndex
        = ((handleProductDrop pos rel (.ok r) rot s).history.length : ℤ) - 1 ∧
    canRedo (handleProductDrop pos rel (.ok r) rot s) = false := by
  unfold handleProductDrop
  rw [if_pos ⟨hp, hc⟩]
  dsimp only
  refine ⟨rfl, ?_, ?_⟩
  · simp
  · simp [canRedo]

/-- Witness for C1: from entries `[A, B, C]` with cursor 2, `undo()` then a
successful drop yields `[A, B, D]`, cursor 2, `canRedo` false. -/
theorem C1_append_truncates_and_prunes_redo_witness :
    ((handleProductDrop (5, 6) (50, 50) (.ok rD) 30 (handleUndo sABC)).history
        = (handleUndo sABC).history.take ((handleUndo sABC).historyIndex + 1).toNat
            ++ [mkDropEntry (5, 6) rD 30] ∧
     (handleProductDrop (5, 6) (50, 50) (.ok rD) 30 (handleUndo sABC)).historyIndex
        = (((handleProductDrop (5, 6) (50, 50) (.ok rD) 30 (handleUndo sABC)).history.length : ℤ)) - 1 ∧
     canRedo (handleProductDrop (5, 6) (50, 50) (.ok rD) 30 (handleUndo sABC)) = false) ∧
    (handleProductDrop (5, 6) (50, 50) (.ok rD) 30 (handleUndo sABC)).history
        = [eA, eB, mkDropEntry (5, 6) rD 30] ∧
    (handleProductDrop (5, 6) (50, 50) (.ok rD) 30 (handleUndo sABC)).historyIndex = 2 :=
  ⟨C1_append_truncates_and_prunes_redo (handleUndo sABC) (5, 6) (50, 50) rD 30
      (by decide) (by decide),
   by decide, by decide⟩

/-- C5: a failed collaborator call leaves `entries` and the cursor exactly
as before, clears the loading flag, and the history can only change when
the result is a success. -/
theorem C5_failure_leaves_history_unchanged
    (s : AppState) (pos rel : ℚ × ℚ) (msg : String) (rot : ℤ) :
    (handleProductDrop pos rel (.error msg) rot s).history = s.history ∧
    (handleProductDrop pos rel (.error msg) rot s).historyIndex = s.historyIndex ∧
    (s.hasProduct = true → (currentHistoryEntry s).isSome = true →
        (handleProductDrop pos rel (.error msg) rot s).isLoading = false) ∧
    (∀ res : Except String GenResult,
        (handleProductDrop pos rel res rot s).history ≠ s.history →
        ∃ r, res = .ok r) := by
  refine ⟨?_, ?_, ?_, ?_⟩
  · unfold handleProductDrop; split <;> rfl
  · unfold handleProductDrop; split <;> rfl
  · intro hp hc
    unfold handleProductDrop
    rw [if_pos ⟨hp, hc⟩]
  · intro res hne
    cases res with
    | ok r => exact ⟨r, rfl⟩
    | error m =>
        exfalso
        apply hne
        unfold handleProductDrop
        split <;> rfl

/-- Witness for C5: a concrete failed call on the `[A, B, C]` state. -/
theorem C5_failure_leaves_history_unchanged_witness :
    (handleProductDrop (5, 6) (50, 50) (.error "boom") 30 sABC).history = sABC.history ∧
    (handleProductDrop (5, 6) (50, 50) (.error "boom") 30 sABC).historyIndex
        = sABC.historyIndex ∧
    (handleProductDrop (5, 6) (50, 50) (.error "boom") 30 sABC).isLoading = false :=
  ⟨(C5_failure_leaves_history_unchanged sABC (5, 6) (50, 50) "boom" 30).1,
   (C5_failure_leaves_history_unchanged sABC (5, 6) (50, 50) "boom" 30).2.1,
   (C5_failure_leaves_history_unchanged sABC (5, 6) (50, 50) "boom" 30).2.2.1
      (by decide) (by decide)⟩

/-- C7: `undo` decrements the cursor exactly when it is positive and is a
no-op at cursor 0; `redo` increments exactly when the cursor is below the
last index and is a no-op at the last index; `canUndo`/`canRedo` are the
corresponding derived predicates. -/
theorem C7_undo_redo_guards (s : AppState) :
    (0 < s.historyIndex →
        (handleUndo s).historyIndex = s.historyIndex - 1 ∧
        (handleUndo s).history = s.history) ∧
    (s.historyIndex = 0 → handleUndo s = s) ∧
    (s.historyIndex < (s.history.length : ℤ) - 1 →
        (handleRedo s).historyIndex = s.historyIndex + 1 ∧
        (handleRedo s).history = s.history) ∧
    (s.historyIndex = (s.history.length : ℤ) - 1 → handleRedo s = s) ∧
    (canUndo s = true ↔ 0 < s.historyIndex) ∧
    (canRedo s = true ↔ s.historyIndex < (s.history.length : ℤ) - 1) := by
  obtain ⟨hist, idx, il, er, hp⟩ := s
  dsimp only
  refine ⟨?_, ?_, ?_, ?_, ?_, ?_⟩
  · intro h
    unfold handleUndo
    dsimp only
    rw [if_pos h]
    exact ⟨rfl, rfl⟩
  · intro h
    unfold handleUndo
    dsimp only
    rw [if_neg (by omega)]
  · intro h
    unfold handleRedo
    dsimp only
    rw [if_pos h]
    exact ⟨rfl, rfl⟩
  · intro h
    unfold handleRedo
    dsimp only
    rw [if_neg (by omega)]
  · simp [canUndo]
  · simp [canRedo]

/-- Witness for C7 on concrete states: cursor 2 of 3 entries, cursor 0,
and redo at the last index. -/
theorem C7_undo_redo_guards_witness :
    ((handleUndo sABC).historyIndex = sABC.historyIndex - 1 ∧
     (handleUndo sABC).history = sABC.history) ∧
    handleUndo (handleUndo (handleUndo sABC)) = handleUndo (handleUndo sABC) ∧
    ((handleRedo (handleUndo sABC)).historyIndex = (handleUndo sABC).historyIndex + 1 ∧
     (handleRedo (handleUndo sABC)).history = (handleUndo sABC).history) ∧
    handleRedo sABC = sABC ∧
    canUndo sABC = true ∧
    canRedo (handleUndo sABC) = true :=
  ⟨(C7_undo_redo_guards sABC).1 (by decide),
   (C7_undo_redo_guards (handleUndo (handleUndo sABC))).2.1 (by decide),
   (C7_undo_redo_guards (handleUndo sABC)).2.2.1 (by decide),
   (C7_undo_redo_guards sABC).2.2.2.1 (by decide),
   ((C7_undo_redo_guards sABC).2.2.2.2.1).mpr (by decide),
   ((C7_undo_redo_guards (handleUndo sABC)).2.2.2.2.2).mpr (by decide)⟩

/-- C10: for a history log with a positive in-range cursor, `undo` then
`redo` restores the whole state (hence `current()`), because after the
undo the cursor is strictly below the last index. -/
theorem C10_undo_then_redo_restores (s : AppState)
    (h0 : 0 < s.historyIndex) (h1 : s.historyIndex < (s.history.length : ℤ)) :
    handleRedo (handleUndo s) = s ∧
    currentHistoryEntry (handleRedo (handleUndo s)) = currentHistoryEntry s ∧
    (handleUndo s).historyIndex < ((handleUndo s).history.length : ℤ) - 1 := by
  obtain ⟨hist, idx, il, er, hp⟩ := s
  dsimp only at h0 h1 ⊢
  have hroundtrip :
      handleRedo (handleUndo (AppState.mk hist idx il er hp))
        = AppState.mk hist idx il er hp := by
    simp only [handleUndo, handleRedo]
    rw [if_pos h0]
    dsimp only
    rw [if_pos (by omega : idx - 1 < (hist.length : ℤ) - 1)]
    have hx : idx - 1 + 1 = idx := by omega
    rw [hx]
  refine ⟨hroundtrip, by rw [hroundtrip], ?_⟩
  simp only [handleUndo]
  rw [if_pos h0]
  dsimp only
  omega

/-- Witness for C10 on the `[A, B, C]`, cursor 2 state. -/
theorem C10_undo_then_redo_restores_witness :
    handleRedo (handleUndo sABC) = sABC ∧
    currentHistoryEntry (handleRedo (handleUndo sABC)) = currentHistoryEntry sABC ∧
    (handleUndo sABC).historyIndex < ((handleUndo sABC).history.length : ℤ) - 1 :=
  C10_undo_then_redo_restores sABC (by decide) (by decide)

/-- C2: the mapper letterbox formulas — full container width when the
image is relatively wider than the container, full height otherwise;
centering offsets are subtracted and the in-bounds point is normalized
to percentages — together with the spec's concrete 2:1-image-in-square
example. -/
theorem C2_mapper_formulas_and_example :
    (∀ nw nh cw ch : ℚ, cw / ch < nw / nh →
        renderedSize nw nh cw ch = (cw, cw / (nw / nh))) ∧
    (∀ nw nh cw ch : ℚ, ¬cw / ch < nw / nh →
        renderedSize nw nh cw ch = (ch * (nw / nh), ch)) ∧
    (∀ nw nh cw ch dx dy : ℚ,
        ¬(dx - (cw - (renderedSize nw nh cw ch).1) / 2 < 0 ∨
          (renderedSize nw nh cw ch).1 < dx - (cw - (renderedSize nw nh cw ch).1) / 2 ∨
          dy - (ch - (renderedSize nw nh cw ch).2) / 2 < 0 ∨
          (renderedSize nw nh cw ch).2 < dy - (ch - (renderedSize nw nh cw ch).2) / 2) →
        mapTouchPoint nw nh cw ch dx dy
          = some ((dx - (cw - (renderedSize nw nh cw ch).1) / 2)
                    / (renderedSize nw nh cw ch).1 * 100,
                  (dy - (ch - (renderedSize nw nh cw ch).2) / 2)
                    / (renderedSize nw nh cw ch).2 * 100)) ∧
    renderedSize 200 100 300 300 = (300, 150) ∧
    (300 - (renderedSize 200 100 300 300).2) / 2 = 75 ∧
    mapTouchPoint 200 100 300 300 150 75 = some (50, 0) ∧
    mapTouchPoint 200 100 300 300 150 10 = none := by
  refine ⟨?_, ?_, ?_, ?_, ?_, ?_, ?_⟩
  · intro nw nh cw ch h
    unfold renderedSize
    rw [if_pos h]
  · intro nw nh cw ch h
    unfold renderedSize
    rw [if_neg h]
  · intro nw nh cw ch dx dy h
    simp only [mapTouchPoint]
    rw [if_neg h]
  · simp only [renderedSize]; norm_num
  · simp only [renderedSize]; norm_num
  · simp only [mapTouchPoint, renderedSize]; norm_num
  · simp only [mapTouchPoint, renderedSize]; norm_num

/-- Witness for C2: the square container is relatively wider than the 2:1
image, so the rendered content spans the full container width. -/
theorem C2_mapper_formulas_and_example_witness :
    (300 : ℚ) / 300 < 200 / 100 ∧
    renderedSize 200 100 300 300 = (300, 300 / (200 / 100)) :=
  ⟨by norm_num, C2_mapper_formulas_and_example.1 200 100 300 300 (by norm_num)⟩

/-- C3: a point whose image-relative coordinates leave
`[0, renderedWidth] × [0, renderedHeight]` is silently rejected: the
mapper yields `none`, no generation call is issued and the state (hence
the history log and the error) is unchanged. -/
theorem C3_out_of_bounds_silently_rejected
    (nw nh cw ch dx dy : ℚ) (res : Except String GenResult) (rot : ℤ)
    (s : AppState)
    (hout : dx - (cw - (renderedSize nw nh cw ch).1) / 2 < 0 ∨
            (renderedSize nw nh cw ch).1 < dx - (cw - (renderedSize nw nh cw ch).1) / 2 ∨
            dy - (ch - (renderedSize nw nh cw ch).2) / 2 < 0 ∨
            (renderedSize nw nh cw ch).2 < dy - (ch - (renderedSize nw nh cw ch).2) / 2) :
    mapTouchPoint nw nh cw ch dx dy = none ∧
    touchEndCallsGenerate nw nh cw ch dx dy s = false ∧
    handleTouchEnd nw nh cw ch dx dy res rot s = s := by
  have hm : mapTouchPoint nw nh cw ch dx dy = none := by
    simp only [mapTouchPoint]
    rw [if_pos hout]
  refine ⟨hm, ?_, ?_⟩
  · simp [touchEndCallsGenerate, hm]
  · simp only [handleTouchEnd, hm]

/-- Witness for C3: the spec's `(150, 10)` point inside the top margin of
the square container is rejected and the `[A, B, C]` state is kept. -/
theorem C3_out_of_bounds_silently_rejected_witness :
    mapTouchPoint 200 100 300 300 150 10 = none ∧
    touchEndCallsGenerate 200 100 300 300 150 10 sABC = false ∧
    handleTouchEnd 200 100 300 300 150 10 (.ok rD) 30 sABC = sABC :=
  C3_out_of_bounds_silently_rejected 200 100 300 300 150 10 (.ok rD) 30 sABC
    (by simp only [renderedSize]; norm_num)

/-- C9: mapping an in-bounds point to percentages and back through
`renderedSize * pct / 100 + offset` reproduces the original point —
exactly, in the rational model. -/
theorem C9_percentage_roundtrip (nw nh cw ch dx dy xp yp : ℚ)
    (hnw : 0 < nw) (hnh : 0 < nh) (hcw : 0 < cw) (hch : 0 < ch)
    (hmap : mapTouchPoint nw nh cw ch dx dy = some (xp, yp)) :
    (renderedSize nw nh cw ch).1 * (xp / 100)
        + (cw - (renderedSize nw nh cw ch).1) / 2 = dx ∧
    (renderedSize nw nh cw ch).2 * (yp / 100)
        + (ch - (renderedSize nw nh cw ch).2) / 2 = dy := by
  have har : 0 < nw / nh := div_pos hnw hnh
  have hpos : 0 < (renderedSize nw nh cw ch).1 ∧ 0 < (renderedSize nw nh cw ch).2 := by
    simp only [renderedSize]
    split
    · exact ⟨hcw, div_pos hcw har⟩
    · exact ⟨mul_pos hch har, hch⟩
  obtain ⟨hw, hh⟩ := hpos
  have hw0 : (renderedSize nw nh cw ch).1 ≠ 0 := ne_of_gt hw
  have hh0 : (renderedSize nw nh cw ch).2 ≠ 0 := ne_of_gt hh
  simp only [mapTouchPoint] at hmap
  split at hmap
  · exact absurd hmap (by simp)
  · rw [Option.some.injEq, Prod.mk.injEq] at hmap
    obtain ⟨hx, hy⟩ := hmap
    constructor
    · rw [← hx]
      field_simp
      ring
    · rw [← hy]
      field_simp
      ring

/-- Witness for C9: the spec's `(150, 75)` point maps to `(50%, 0%)` and
back to `(150, 75)`. -/
theorem C9_percentage_roundtrip_witness :
    (renderedSize 200 100 300 300).1 * (50 / 100)
        + (300 - (renderedSize 200 100 300 300).1) / 2 = 150 ∧
    (renderedSize 200 100 300 300).2 * (0 / 100)
        + (300 - (renderedSize 200 100 300 300).2) / 2 = 75 :=
  C9_percentage_roundtrip 200 100 300 300 150 75 50 0
    (by norm_num) (by norm_num) (by norm_num) (by norm_num)
    (by simp only [mapTouchPoint, renderedSize]; norm_num)

/-- C4 (code behaviour at the failing input): for a container of zero
width and height, the drop point `(0, 0)` is NOT rejected — the
rendered size degenerates to `(0, 0)`, yet the bounds check passes, the
percentages are computed with a zero divisor (`0/0`, which is `NaN` in
the JavaScript source; `0` in this rational model) and the generation
call is still issued. The guard the spec requires does not exist in the
code. -/
theorem C4_zero_size_container_not_rejected :
    renderedSize 200 100 0 0 = (0, 0) ∧
    mapTouchPoint 200 100 0 0 0 0 = some (0, 0) ∧
    touchEndCallsGenerate 200 100 0 0 0 0 sABC = true ∧
    handleTouchEnd 200 100 0 0 0 0 (.ok rD) 30 sABC ≠ sABC := by
  refine ⟨?_, ?_, ?_, ?_⟩
  · simp only [renderedSize]; norm_num
  · simp only [mapTouchPoint, renderedSize]; norm_num
  · simp only [touchEndCallsGenerate, dropCallsGenerate, mapTouchPoint, renderedSize]
    norm_num
    decide
  · simp only [handleTouchEnd, mapTouchPoint, renderedSize]
    norm_num
    decide

/-- List indexing helper: `l[n]?` is `some` exactly when `n` is in range. -/
theorem list_getElem?_isSome_iff {α : Type} (l : List α) (n : ℕ) :
    l[n]?.isSome = true ↔ n < l.length := by
  cases h : l[n]? with
  | none =>
      rw [List.getElem?_eq_none_iff] at h
      simp only [Option.isSome_none, Bool.false_eq_true, false_iff]
      omega
  | some v =>
      rw [List.getElem?_eq_some_iff] at h
      obtain ⟨h1, -⟩ := h
      simp only [Option.isSome_some, true_iff]
      exact h1

/-- `currentHistoryEntry` is present exactly when the cursor is a valid
index. -/
theorem currentHistoryEntry_isSome_iff (s : AppState) :
    (currentHistoryEntry s).isSome = true ↔
      0 ≤ s.historyIndex ∧ s.historyIndex.toNat < s.history.length := by
  unfold currentHistoryEntry
  split
  · rename_i h
    rw [list_getElem?_isSome_iff]
    exact ⟨fun hh => ⟨h, hh⟩, fun hh => hh.2⟩
  · rename_i h
    simp only [Option.isSome_none, Bool.false_eq_true, false_iff]
    intro hh
    exact h hh.1

/-- The history-log invariant: cursor `-1` on the empty log, otherwise a
valid index. -/
def histInv (s : AppState) : Prop :=
  (s.history = [] → s.historyIndex = -1) ∧
  (s.history ≠ [] → 0 ≤ s.historyIndex ∧ s.historyIndex < (s.history.length : ℤ))

theorem histInv_initState : histInv initState :=
  ⟨fun _ => rfl, fun h => absurd rfl h⟩

theorem histInv_applyOp (s : AppState) (op : Op) (h : histInv s) :
    histInv (applyOp s op) := by
  obtain ⟨hemp, hne⟩ := h
  cases op with
  | sceneUpload f =>
      show histInv (handleSceneUpload f s)
      refine ⟨?_, ?_⟩
      · intro hh
        simp [handleSceneUpload] at hh
      · intro _
        simp [handleSceneUpload]
  | productUpload =>
      show histInv (handleProductImageUpload s)
      exact ⟨hemp, hne⟩
  | drop p rp r rot =>
      show histInv (handleProductDrop p rp r rot s)
      unfold handleProductDrop
      split
      · rename_i hg
        obtain ⟨hp, hc⟩ := hg
        rw [currentHistoryEntry_isSome_iff] at hc
        obtain ⟨h0, hlt⟩ := hc
        cases r with
        | ok g =>
            dsimp only
            refine ⟨?_, ?_⟩
            · intro hh
              simp at hh
            · intro _
              simp only [List.length_append, List.length_take, List.length_cons,
                List.length_nil]
              constructor <;> omega
        | error m =>
            exact ⟨hemp, hne⟩
      · exact ⟨hemp, hne⟩
  | undo =>
      show histInv (handleUndo s)
      unfold handleUndo
      split
      · rename_i hpos
        refine ⟨?_, ?_⟩
        · intro hh
          exfalso
          have := hemp hh
          omega
        · intro hh
          have := hne hh
          dsimp only
          omega
      · exact ⟨hemp, hne⟩
  | redo =>
      show histInv (handleRedo s)
      unfold handleRedo
      split
      · rename_i hpos
        refine ⟨?_, ?_⟩
        · intro hh
          exfalso
          have h1 : (s.history.length : ℤ) = 0 := by rw [hh]; rfl
          rw [h1] at hpos
          have h2 := hemp hh
          omega
        · intro hh
          have := hne hh
          dsimp only
          omega
      · exact ⟨hemp, hne⟩
  | reset =>
      show histInv (handleReset s)
      exact ⟨fun _ => rfl, fun h => absurd rfl h⟩

theorem histInv_applyOps (ops : List Op) (s : AppState) (h : histInv s) :
    histInv (applyOps ops s) := by
  induction ops generalizing s with
  | nil => exact h
  | cons op rest ih => exact ih (applyOp s op) (histInv_applyOp s op h)

/-- C6: along every event sequence from the initial state, the cursor is
`-1` exactly on the empty log and a valid index otherwise, and
`current()` is `entries[cursor]` (absent on the empty log). -/
theorem C6_cursor_invariant (ops : List Op) :
    ((applyOps ops initState).history = [] →
        (applyOps ops initState).historyIndex = -1 ∧
        currentHistoryEntry (applyOps ops initState) = none) ∧
    ((applyOps ops initState).history ≠ [] →
        0 ≤ (applyOps ops initState).historyIndex ∧
        (applyOps ops initState).historyIndex
            < ((applyOps ops initState).history.length : ℤ) ∧
        currentHistoryEntry (applyOps ops initState)
          = (applyOps ops initState).history[
              (applyOps ops initState).historyIndex.toNat]? ∧
        (currentHistoryEntry (applyOps ops initState)).isSome = true) := by
  obtain ⟨hemp, hne⟩ := histInv_applyOps ops initState histInv_initState
  constructor
  · intro hh
    refine ⟨hemp hh, ?_⟩
    unfold currentHistoryEntry
    rw [hh]
    simp
  · intro hh
    obtain ⟨h0, hlt⟩ := hne hh
    refine ⟨h0, hlt, ?_, ?_⟩
    · unfold currentHistoryEntry
      rw [if_pos h0]
    · rw [currentHistoryEntry_isSome_iff]
      exact ⟨h0, by omega⟩

/-- Witness for C6: the empty event sequence and a single scene upload. -/
theorem C6_cursor_invariant_witness :
    ((applyOps [] initState).historyIndex = -1 ∧
     currentHistoryEntry (applyOps [] initState) = none) ∧
    (0 ≤ (applyOps [Op.sceneUpload "S"] initState).historyIndex ∧
     (applyOps [Op.sceneUpload "S"] initState).historyIndex
        < ((applyOps [Op.sceneUpload "S"] initState).history.length : ℤ) ∧
     currentHistoryEntry (applyOps [Op.sceneUpload "S"] initState)
        = (applyOps [Op.sceneUpload "S"] initState).history[
            (applyOps [Op.sceneUpload "S"] initState).historyIndex.toNat]? ∧
     (currentHistoryEntry (applyOps [Op.sceneUpload "S"] initState)).isSome = true) :=
  ⟨(C6_cursor_invariant []).1 (by decide),
   (C6_cursor_invariant [Op.sceneUpload "S"]).2 (by decide)⟩

/-- The C8 invariant: the head of the history, when present, carries no
marker position and no debug artifact. -/
def firstEntryRaw (s : AppState) : Prop :=
  ∀ e : HistoryEntry, s.history.head? = some e →
    e.persistedOrbPosition = none ∧ e.debugImageUrl = none ∧ e.debugPrompt = none

theorem firstEntryRaw_initState : firstEntryRaw initState := by
  intro e he
  simp [initState] at he

theorem firstEntryRaw_applyOp (s : AppState) (op : Op) (h : firstEntryRaw s) :
    firstEntryRaw (applyOp s op) := by
  cases op with
  | sceneUpload f =>
      show firstEntryRaw (handleSceneUpload f s)
      intro e he
      simp only [handleSceneUpload, List.head?_cons, Option.some.injEq] at he
      rw [← he]
      exact ⟨rfl, rfl, rfl⟩
  | productUpload =>
      show firstEntryRaw (handleProductImageUpload s)
      exact h
  | drop p rp r rot =>
      show firstEntryRaw (handleProductDrop p rp r rot s)
      intro e he
      unfold handleProductDrop at he
      split at he
      · rename_i hg
        obtain ⟨hp, hc⟩ := hg
        rw [currentHistoryEntry_isSome_iff] at hc
        obtain ⟨h0, hlt⟩ := hc
        cases r with
        | ok g =>
            dsimp only at he
            have hk : (s.historyIndex + 1).toNat = s.historyIndex.toNat + 1 := by
              omega
            rw [hk] at he
            cases hl : s.history with
            | nil =>
                rw [hl] at hlt
                simp at hlt
            | cons a t =>
                rw [hl, List.take_succ_cons, List.cons_append, List.head?_cons,
                  Option.some.injEq] at he
                rw [← he]
                apply h
                rw [hl, List.head?_cons]
        | error m =>
            exact h e he
      · exact h e he
  | undo =>
      show firstEntryRaw (handleUndo s)
      intro e he
      unfold handleUndo at he
      split at he
      · exact h e he
      · exact h e he
  | redo =>
      show firstEntryRaw (handleRedo s)
      intro e he
      unfold handleRedo at he
      split at he
      · exact h e he
      · exact h e he
  | reset =>
      show firstEntryRaw (handleReset s)
      intro e he
      simp [handleReset] at he

theorem firstEntryRaw_applyOps (ops : List Op) (s : AppState) (h : firstEntryRaw s) :
    firstEntryRaw (applyOps ops s) := by
  induction ops generalizing s with
  | nil => exact h
  | cons op rest ih => exact ih (applyOp s op) (firstEntryRaw_applyOp s op h)

/-- C8: on every reachable state, the first history entry — when one
exists — has no marker position and no debug artifact. -/
theorem C8_first_entry_has_no_marker_no_debug (ops : List Op) (e : HistoryEntry)
    (h : (applyOps ops initState).history.head? = some e) :
    e.persistedOrbPosition = none ∧ e.debugImageUrl = none ∧ e.debugPrompt = none :=
  firstEntryRaw_applyOps ops initState firstEntryRaw_initState e h

/-- Witness for C8: upload a scene, select a product and perform a
successful drop; the first entry is still the raw scene. -/
theorem C8_first_entry_has_no_marker_no_debug_witness :
    HistoryEntry.persistedOrbPosition ⟨"S", none, none, none, 0⟩ = none ∧
    HistoryEntry.debugImageUrl ⟨"S", none, none, none, 0⟩ = none ∧
    HistoryEntry.debugPrompt ⟨"S", none, none, none, 0⟩ = none :=
  C8_first_entry_has_no_marker_no_debug
    [Op.sceneUpload "S", Op.productUpload, Op.drop (1, 1) (10, 10) (.ok rD) 0]
    ⟨"S", none, none, none, 0⟩ (by decide)
